import Mathlib

/-!
Verification of the musicViz enrichment pipeline (`src/update_data.py`).

The script is embedded shallowly:

* Python dictionaries coming from JSON are modelled by typed structures with
  `Option` fields (`none` = key absent); the nullable `RunTimeTicks` value is
  `Option (Option Int)` (outer `Option` = key presence, inner = JSON null).
* The standard-library `json` module and the filesystem are external to the
  repository; a file store maps a path to the parsed JSON value it holds.
* The external MusicBrainz client (`musicbrainzngs`) and the Jellyfin HTTP
  client are external collaborators, modelled as oracles: `Except Unit`
  results stand for "answer or service-level error".
* The per-track loop, the `KeyboardInterrupt` handler and the `finally`
  block (lines 132-188) become a fuel-indexed recursion: `some k` means an
  operator interrupt arrives at the top of the loop after `k` complete
  iterations; `none` means no interrupt.  An unhandled Python exception
  (e.g. `None / 10000000` raising `TypeError`) is `RunStop.crashed`; the
  `finally` block writes the output file and the genre cache on every path.
-/

namespace MusicViz

/-- JSON values, as produced by Python's `json` module. -/
inductive Json where
  | null : Json
  | bool (b : Bool) : Json
  | num (q : ℚ) : Json
  | str (s : String) : Json
  | arr (elems : List Json) : Json
  | obj (fields : List (String × Json)) : Json

/-- A file store: path ↦ parsed JSON contents of the file, `none` if the
file does not exist.  `json.dump` / `json.load` (Python standard library,
external to this repository) are modelled as storing and retrieving the
parsed value. -/
abbrev FS := String → Option Json

/-- Embedding of `os.path.exists` as used on cache paths. -/
def os_path_exists (fs : FS) (filepath : String) : Bool :=
  (fs filepath).isSome

/-- Embedding of `load_cache` (src/update_data.py lines 11-16): if the file
exists, parse and return its JSON contents; otherwise return the empty
mapping `{}`. -/
def load_cache (fs : FS) (filepath : String) : Json :=
  if os_path_exists fs filepath then (fs filepath).getD (Json.obj [])
  else Json.obj []

/-- Embedding of `save_cache` (src/update_data.py lines 18-21): serialize the
mapping and overwrite the file at `filepath`. -/
def save_cache (fs : FS) (cache : List (String × Json)) (filepath : String) : FS :=
  fun p => if p = filepath then some (Json.obj cache) else fs p

/-- A MusicBrainz recording as consumed by `get_genres`: the optional
`tag-list` (already projected to the tag names, mirroring
`[tag['name'] for tag in recording['tag-list']]`) and the optional
`artist-credit` list, projected to the credited artist ids
(`credit['artist']['id']`). -/
structure MBRecording where
  tag_list : Option (List String) := none
  artist_credit : Option (List String) := none

/-- The `artist` object inside a `get_artist_by_id` response; `tag_list` is
its optional `tag-list`, projected to tag names. -/
structure MBArtist where
  tag_list : Option (List String) := none

/-- A `get_artist_by_id` response: the optional `artist` object. -/
structure MBArtistInfo where
  artist : Option MBArtist := none

/-- Oracle for the `musicbrainzngs` client: `search_recordings` returns the
`recording-list` of the search result (the code passes `limit=1` and reads
entry `[0]`), `get_artist_by_id` returns the artist info.  `Except.error ()`
stands for `musicbrainzngs.WebServiceError`. -/
structure MBService where
  search_recordings : String → String → Except Unit (List MBRecording)
  get_artist_by_id : String → Except Unit MBArtistInfo

/-- Embedding of `get_genres` (src/update_data.py lines 56-92): query the top
matching recording; return its tag names if it has a `tag-list`; otherwise
fall back to the first credited artist's own tags; any `WebServiceError`
and every no-data branch yield `[]`. -/
def get_genres (mb : MBService) (artist_name song_title : String) : List String :=
  match mb.search_recordings artist_name song_title with
  | Except.error _ => []
  | Except.ok recordingList =>
    match recordingList with
    | [] => []
    | recording :: _ =>
      match recording.tag_list with
      | some tags => tags
      | none =>
        match recording.artist_credit with
        | some (artistId :: _) =>
          (match mb.get_artist_by_id artistId with
          | Except.error _ => []
          | Except.ok artist_info =>
            match artist_info.artist with
            | some ar =>
              (match ar.tag_list with
              | some tags => tags
              | none => [])
            | none => [])
        | _ => []

/-- A raw Jellyfin track record, restricted to the fields the pipeline reads.
`none` means the key is absent from the JSON object; for `RunTimeTicks` the
inner `Option` distinguishes a JSON `null` value (`some none`) from a
number (`some (some t)`). -/
structure Song where
  Name : Option String := none
  AlbumArtist : Option String := none
  Artists : Option (List String) := none
  Genres : Option (List String) := none
  RunTimeTicks : Option (Option Int) := none
  Album : Option String := none
  ProductionYear : Option Int := none
deriving DecidableEq

/-- One enriched output record, as appended to `out`
(src/update_data.py lines 170-177). -/
structure TrackOut where
  title : String
  artists : List String
  duration : Option ℚ
  genres : List String
  album : String
  year : Option Int
deriving DecidableEq

/-- The Python runtime error raised by `None / 10000000`. -/
inductive PyError where
  | typeError : PyError
deriving DecidableEq

/-- The in-memory `genre_cache` dictionary: an insertion-ordered association
list from compound keys to genre lists. -/
abbrev GenreCache := List (String × List String)

/-- Dictionary lookup: value of the first (and, with unique keys, only)
binding of `key`. -/
def cacheGet : GenreCache → String → Option (List String)
  | [], _ => none
  | kv :: rest, key => if kv.1 == key then some kv.2 else cacheGet rest key

/-- Membership test, `key in genre_cache`. -/
def cacheMem (cache : GenreCache) (key : String) : Bool :=
  (cacheGet cache key).isSome

/-- Dictionary assignment `genre_cache[key] = val`: overwrite an existing
binding in place, otherwise append a new binding at the end. -/
def cacheSet (cache : GenreCache) (key : String) (val : List String) : GenreCache :=
  if cacheMem cache key then
    cache.map (fun kv => if kv.1 == key then (key, val) else kv)
  else
    cache ++ [(key, val)]

/-- Line 135: `title = song.get('Name', 'Unknown Title')`.  The default is
used only when the key is absent; a present value is used verbatim. -/
def trackTitle (song : Song) : String :=
  song.Name.getD "Unknown Title"

/-- Python truthiness of `song.get(field)` for a string field: falsy when
absent or empty. -/
def pyTruthyStr : Option String → Bool
  | none => false
  | some s => !(s == "")

/-- Python truthiness of `song.get(field)` for a list field: falsy when
absent or empty. -/
def pyTruthyList : Option (List String) → Bool
  | none => false
  | some l => !l.isEmpty

/-- Lines 138-142: prefer a truthy `AlbumArtist` as a one-element list, fall
back to a truthy `Artists` list, else the empty list. -/
def trackArtists (song : Song) : List String :=
  if pyTruthyStr song.AlbumArtist then [song.AlbumArtist.getD ""]
  else if pyTruthyList song.Artists then song.Artists.getD []
  else []

/-- Line 144: `artists[0] if artists else 'Unknown Artist'`. -/
def primaryArtist (song : Song) : String :=
  match trackArtists song with
  | [] => "Unknown Artist"
  | a :: _ => a

/-- Character-wise lowercasing, embedding Python's `str.lower` (the compound
keys are ASCII-insensitive exactly as `Char.toLower` is). -/
def strLower (s : String) : String :=
  String.mk (s.data.map Char.toLower)

/-- Line 151: the compound cache key `f"{primary_artist}::{title}".lower()`. -/
def genreCacheKey (artist title : String) : String :=
  strLower (artist ++ "::" ++ title)

/-- Lines 151-157: the genre resolver for one uncached-genre track — consult
the cache under the compound key, otherwise perform the remote lookup and
store the result in the cache before returning it.  `lookup` abstracts the
remote `get_genres` call; the third component counts how many remote
lookups were performed. -/
def resolveGenres (lookup : String → String → List String)
    (artist title : String) (cache : GenreCache) :
    List String × GenreCache × Nat :=
  match cacheGet cache (genreCacheKey artist title) with
  | some gs => (gs, cache, 0)
  | none =>
    (lookup artist title,
     cacheSet cache (genreCacheKey artist title) (lookup artist title), 1)

/-- Lines 147-159: server-supplied genres take precedence; only when
`song.get('Genres', [])` is empty is the resolver consulted. -/
def trackGenres (lookup : String → String → List String)
    (song : Song) (cache : GenreCache) :
    List String × GenreCache × Nat :=
  if (song.Genres.getD []).isEmpty then
    resolveGenres lookup (primaryArtist song) (trackTitle song) cache
  else
    (song.Genres.getD [], cache, 0)

/-- Lines 162-164: `duration_seconds` is `None` when `RunTimeTicks` is
absent, the ticks divided by 10,000,000 when present with a number, and a
`TypeError` (`None / 10000000`) when present with JSON `null`. -/
def trackDuration (song : Song) : Except PyError (Option ℚ) :=
  match song.RunTimeTicks with
  | none => Except.ok none
  | some none => Except.error PyError.typeError
  | some (some t) => Except.ok (some ((t : ℚ) / 10000000))

/-- Line 167: `album_name = song.get('Album', 'Unknown Album')`. -/
def trackAlbum (song : Song) : String :=
  song.Album.getD "Unknown Album"

/-- One iteration of the per-track loop (lines 134-177): returns the genre
cache after the iteration, the number of remote lookups performed, and
either the record appended to `out` or the runtime error that escaped the
iteration.  Genre resolution (and hence the cache write) happens before the
duration conversion, so a duration `TypeError` leaves the cache already
updated. -/
def processSong (lookup : String → String → List String)
    (cache : GenreCache) (song : Song) :
    GenreCache × Nat × Except PyError TrackOut :=
  match trackDuration song with
  | Except.error e =>
    ((trackGenres lookup song cache).2.1, (trackGenres lookup song cache).2.2,
     Except.error e)
  | Except.ok dur =>
    ((trackGenres lookup song cache).2.1, (trackGenres lookup song cache).2.2,
     Except.ok
       { title := trackTitle song
         artists := trackArtists song
         duration := dur
         genres := (trackGenres lookup song cache).1
         album := trackAlbum song
         year := song.ProductionYear })

/-- How the per-track loop stopped. -/
inductive RunStop where
  | completed : RunStop
  | interrupted : RunStop
  | crashed (e : PyError) : RunStop
deriving DecidableEq

/-- Decrement of the interrupt countdown. -/
def decFuel : Option Nat → Option Nat
  | none => none
  | some n => some (n - 1)

/-- The per-track loop (lines 132-180).  `fuel = some k` models a
`KeyboardInterrupt` arriving at the top of the loop after `k` complete
iterations (`none`: no interrupt).  Returns the accumulated `out` list, the
final genre cache, and how the loop stopped; an unhandled per-track error
aborts the loop as `crashed`. -/
def runLoop (lookup : String → String → List String) :
    List Song → GenreCache → Option Nat → List TrackOut × GenreCache × RunStop
  | [], cache, fuel =>
    if fuel = some 0 then ([], cache, RunStop.interrupted)
    else ([], cache, RunStop.completed)
  | song :: rest, cache, fuel =>
    if fuel = some 0 then ([], cache, RunStop.interrupted)
    else
      match (processSong lookup cache song).2.2 with
      | Except.error e => ([], (processSong lookup cache song).1, RunStop.crashed e)
      | Except.ok tr =>
        let r := runLoop lookup rest (processSong lookup cache song).1 (decFuel fuel)
        (tr :: r.1, r.2.1, r.2.2)

/-- Process exit status: an uncaught exception exits nonzero; normal
completion and a caught `KeyboardInterrupt` exit zero. -/
def exitCodeOf : RunStop → Nat
  | RunStop.crashed _ => 1
  | _ => 0

/-- Observable outcome of one run of the script: exit status, whether the
Jellyfin client was called, and the contents written to the library cache
file, to `out.json`, and to the genre cache file (`none`: file not
written). -/
structure RunResult where
  exitCode : Nat
  fetchCalled : Bool
  jellyfinCacheWritten : Option (List Song)
  outWritten : Option (List TrackOut)
  genreCacheWritten : Option GenreCache
deriving DecidableEq

/-- The top-level script (lines 111-188).  `jellyfinCacheFile` is the parsed
contents of the library cache file if it exists; `fetchResult` the Jellyfin
client's answer (`Except.error ()`: `requests` transport error, which is
fatal with `exit(1)` and no files written).  On every other path the
`finally` block writes `out.json` and saves the genre cache, whether the
loop completed, was interrupted, or crashed. -/
def runProgram (lookup : String → String → List String)
    (jellyfinCacheFile : Option (List Song))
    (fetchResult : Except Unit (List Song))
    (genreCache0 : GenreCache)
    (interrupt : Option Nat) : RunResult :=
  match jellyfinCacheFile with
  | none =>
    match fetchResult with
    | Except.error _ =>
      { exitCode := 1
        fetchCalled := true
        jellyfinCacheWritten := none
        outWritten := none
        genreCacheWritten := none }
    | Except.ok library =>
      { exitCode := exitCodeOf (runLoop lookup library genreCache0 interrupt).2.2
        fetchCalled := true
        jellyfinCacheWritten := some library
        outWritten := some (runLoop lookup library genreCache0 interrupt).1
        genreCacheWritten := some (runLoop lookup library genreCache0 interrupt).2.1 }
  | some library =>
    { exitCode := exitCodeOf (runLoop lookup library genreCache0 interrupt).2.2
      fetchCalled := false
      jellyfinCacheWritten := none
      outWritten := some (runLoop lookup library genreCache0 interrupt).1
      genreCacheWritten := some (runLoop lookup library genreCache0 interrupt).2.1 }

/-- A lookup oracle that never finds genres. -/
def lookupNone : String → String → List String := fun _ _ => []

/-- Track (a) of the end-to-end scenario. -/
def songX : Song :=
  { Name := some "X"
    AlbumArtist := some "A"
    Genres := some ["Rock"]
    RunTimeTicks := some (some 30000000) }

/-- Track (b) of the end-to-end scenario: `RunTimeTicks` present with JSON
`null`, no `Genres`. -/
def songY : Song :=
  { Name := some "Y"
    Artists := some ["B", "C"]
    RunTimeTicks := some none }

/-- The scenario's resolver oracle: the remote lookup for `("B", "Y")`
returns `["Jazz"]`. -/
def lookupJazz : String → String → List String :=
  fun artist title => if artist == "B" && title == "Y" then ["Jazz"] else []

/-- The enrichment of track (a), with the duration written as the exact
expression the pipeline computes (it equals `3`, see `c3_amended_run`). -/
def trackXout : TrackOut :=
  { title := "X"
    artists := ["A"]
    duration := some (((30000000 : Int) : ℚ) / 10000000)
    genres := ["Rock"]
    album := "Unknown Album"
    year := none }

/-- The enrichment of track (a) claimed by the end-to-end scenario. -/
def trackXclaimed : TrackOut :=
  { title := "X"
    artists := ["A"]
    duration := some 3
    genres := ["Rock"]
    album := "Unknown Album"
    year := none }

/-- The enrichment of track (b) claimed by the end-to-end scenario. -/
def trackYclaimed : TrackOut :=
  { title := "Y"
    artists := ["B", "C"]
    duration := none
    genres := ["Jazz"]
    album := "Unknown Album"
    year := none }

/-- A record whose name field is present but empty. -/
def songEmptyName : Song := { Name := some "" }

/-- A record whose run-time-ticks field is present with JSON `null`. -/
def songNullTicks : Song := { RunTimeTicks := some none }

/-- A lookup oracle that always finds the genre list `["Z"]`. -/
def lookupZ : String → String → List String := fun _ _ => ["Z"]

/-- A record with every field absent. -/
def emptySong : Song := {}

/-- A MusicBrainz oracle whose top matching recording carries tag data. -/
def mbTagged : MBService :=
  { search_recordings := fun _ _ => Except.ok [{ tag_list := some ["rock", "pop"] }]
    get_artist_by_id := fun _ => Except.error () }

/-- A MusicBrainz oracle whose search raises a `WebServiceError`. -/
def mbDown : MBService :=
  { search_recordings := fun _ _ => Except.error ()
    get_artist_by_id := fun _ => Except.error () }

/-- Appending a fresh binding makes it visible under its key. -/
theorem cacheGet_append_self (key : String) (v : List String) :
    ∀ cache : GenreCache, cacheGet cache key = none →
      cacheGet (cache ++ [(key, v)]) key = some v := by
  intro cache
  induction cache with
  | nil => intro _; simp [cacheGet]
  | cons kv rest ih =>
    intro h
    cases hk : kv.1 == key with
    | true => simp [cacheGet, hk] at h
    | false =>
      simp only [List.cons_append]
      simp [cacheGet, hk] at h ⊢
      exact ih h

/-- Assigning to an absent key appends a new binding at the end. -/
theorem cacheSet_absent (cache : GenreCache) (key : String) (v : List String)
    (h : cacheGet cache key = none) : cacheSet cache key v = cache ++ [(key, v)] := by
  simp [cacheSet, cacheMem, h]

/-- C1: a track whose raw record carries a non-empty genre-tags field is
enriched with exactly that list; the resolver is not invoked for it — the
genre cache is untouched and zero remote lookups happen. -/
theorem c1_server_genres_precedence (lookup : String → String → List String)
    (cache : GenreCache) (song : Song) (gs : List String)
    (hg : song.Genres = some gs) (hne : gs ≠ []) :
    trackGenres lookup song cache = (gs, cache, 0)
    ∧ ∀ tr, (processSong lookup cache song).2.2 = Except.ok tr → tr.genres = gs := by
  obtain ⟨a, as, rfl⟩ : ∃ a as, gs = a :: as := by
    cases gs with
    | nil => exact absurd rfl hne
    | cons a as => exact ⟨a, as, rfl⟩
  have h1 : trackGenres lookup song cache = (a :: as, cache, 0) := by
    simp [trackGenres, hg]
  refine ⟨h1, ?_⟩
  intro tr htr
  cases hd : trackDuration song with
  | error e => simp [processSong, hd] at htr
  | ok dur =>
    simp [processSong, hd, h1] at htr
    rw [← htr]

/-- Witness for C1 at a concrete track with server genres `["Rock"]` and a
resolver that would answer `["Z"]`. -/
theorem c1_witness :
    trackGenres lookupZ { Genres := some ["Rock"] } [] = (["Rock"], [], 0) :=
  (c1_server_genres_precedence lookupZ [] { Genres := some ["Rock"] } ["Rock"]
    rfl (by decide)).1

/-- C2: when the compound key is absent, a first resolution performs exactly
one remote lookup, returns its (possibly empty) answer and stores it in the
cache under the key; a second resolution of the same pair against the
resulting cache performs no remote lookup and returns the identical list,
leaving the cache unchanged. -/
theorem c2_resolver_idempotent (lookup : String → String → List String)
    (cache : GenreCache) (artist title : String)
    (h : cacheGet cache (genreCacheKey artist title) = none) :
    (resolveGenres lookup artist title cache).2.2 = 1
    ∧ (resolveGenres lookup artist title cache).1 = lookup artist title
    ∧ cacheGet (resolveGenres lookup artist title cache).2.1 (genreCacheKey artist title)
        = some (lookup artist title)
    ∧ resolveGenres lookup artist title (resolveGenres lookup artist title cache).2.1
        = ((resolveGenres lookup artist title cache).1,
           (resolveGenres lookup artist title cache).2.1, 0) := by
  have hset : cacheSet cache (genreCacheKey artist title) (lookup artist title)
      = cache ++ [(genreCacheKey artist title, lookup artist title)] :=
    cacheSet_absent _ _ _ h
  have hget : cacheGet
      (cacheSet cache (genreCacheKey artist title) (lookup artist title))
      (genreCacheKey artist title) = some (lookup artist title) := by
    rw [hset]
    exact cacheGet_append_self _ _ _ h
  refine ⟨?_, ?_, ?_, ?_⟩ <;> simp [resolveGenres, h, hget]

/-- Witness for C2 at a remote lookup that finds nothing: the empty list is
cached and the second resolution is served from the cache. -/
theorem c2_witness :
    (resolveGenres lookupNone "Artist" "Title" []).2.2 = 1
    ∧ (resolveGenres lookupNone "Artist" "Title" []).1 = []
    ∧ cacheGet (resolveGenres lookupNone "Artist" "Title" []).2.1
        (genreCacheKey "Artist" "Title") = some []
    ∧ resolveGenres lookupNone "Artist" "Title"
        (resolveGenres lookupNone "Artist" "Title" []).2.1
        = ((resolveGenres lookupNone "Artist" "Title" []).1,
           (resolveGenres lookupNone "Artist" "Title" []).2.1, 0) :=
  c2_resolver_idempotent lookupNone [] "Artist" "Title" rfl

/-- C3 counterexample: on the end-to-end scenario's library the pipeline does
not produce the claimed two-track output — track (b)'s present-but-null
run-time-ticks makes the duration conversion raise a `TypeError`, so only
track (a) is in the written output. -/
theorem c3_counterexample_crash :
    (runProgram lookupJazz none (Except.ok [songX, songY]) [] none).outWritten
      ≠ some [trackXclaimed, trackYclaimed] := by
  intro h
  have hr : (runProgram lookupJazz none (Except.ok [songX, songY]) [] none).outWritten
      = some [trackXout] := rfl
  rw [hr] at h
  simp at h

/-- C3 (amended): on the scenario's library, track (a) is enriched to
`{title "X", artists ["A"], duration 3.0, genres ["Rock"], album
"Unknown Album", year null}`; processing track (b) stores `"b::y" ↦ ["Jazz"]`
in the genre cache and then crashes on `null / 10000000`, so the run exits
nonzero after the finalization block writes the one-track output and the
genre cache containing `"b::y" ↦ ["Jazz"]`. -/
theorem c3_amended_run :
    runProgram lookupJazz none (Except.ok [songX, songY]) [] none
      = { exitCode := 1
          fetchCalled := true
          jellyfinCacheWritten := some [songX, songY]
          outWritten := some [trackXout]
          genreCacheWritten := some [("b::y", ["Jazz"])] }
    ∧ trackXout.duration = some 3 := by
  constructor
  · rfl
  · show some (((30000000 : Int) : ℚ) / 10000000) = some 3
    norm_num

/-- C4 counterexample: a record whose name field is present but empty is
enriched with the empty title, not `"Unknown Title"`. -/
theorem c4_counterexample_empty_name :
    (processSong lookupNone [] songEmptyName).2.2
      = Except.ok
          { title := ""
            artists := []
            duration := none
            genres := []
            album := "Unknown Album"
            year := none }
    ∧ "" ≠ "Unknown Title" := ⟨rfl, by decide⟩

/-- C4 (amended): an absent name field yields title `"Unknown Title"` (a
present name, even the empty string, is used verbatim); an absent album
field yields `"Unknown Album"`; when both artist fields are absent or empty
the artists list is empty and the resolver, if invoked, receives
`"Unknown Artist"` as its artist argument. -/
theorem c4_amended_defaults (lookup : String → String → List String)
    (cache : GenreCache) (song : Song) :
    (song.Name = none → trackTitle song = "Unknown Title")
    ∧ (∀ s, song.Name = some s → trackTitle song = s)
    ∧ (song.Album = none → trackAlbum song = "Unknown Album")
    ∧ (pyTruthyStr song.AlbumArtist = false → pyTruthyList song.Artists = false →
        trackArtists song = []
        ∧ primaryArtist song = "Unknown Artist"
        ∧ (song.Genres.getD [] = [] →
            trackGenres lookup song cache
              = resolveGenres lookup "Unknown Artist" (trackTitle song) cache)) := by
  refine ⟨?_, ?_, ?_, ?_⟩
  · intro h; simp [trackTitle, h]
  · intro s h; simp [trackTitle, h]
  · intro h; simp [trackAlbum, h]
  · intro ha hl
    have hart : trackArtists song = [] := by simp [trackArtists, ha, hl]
    have hpa : primaryArtist song = "Unknown Artist" := by
      simp [primaryArtist, hart]
    refine ⟨hart, hpa, ?_⟩
    intro hg
    simp [trackGenres, hg, hpa]

/-- Witness for the amended C4 at the record with every field absent. -/
theorem c4_amended_witness :
    trackTitle emptySong = "Unknown Title"
    ∧ trackAlbum emptySong = "Unknown Album"
    ∧ trackArtists emptySong = []
    ∧ primaryArtist emptySong = "Unknown Artist"
    ∧ trackGenres lookupNone emptySong []
        = resolveGenres lookupNone "Unknown Artist" (trackTitle emptySong) [] := by
  have h := c4_amended_defaults lookupNone [] emptySong
  exact ⟨h.1 rfl, h.2.2.1 rfl, (h.2.2.2 rfl rfl).1, (h.2.2.2 rfl rfl).2.1,
    (h.2.2.2 rfl rfl).2.2 rfl⟩

/-- C5 counterexample: a record whose run-time-ticks field is present with
JSON `null` has no enriched duration at all — the conversion raises
`TypeError` and the track's enrichment fails. -/
theorem c5_counterexample_null_ticks :
    trackDuration songNullTicks = Except.error PyError.typeError
    ∧ (processSong lookupNone [] songNullTicks).2.2 = Except.error PyError.typeError :=
  ⟨rfl, rfl⟩

/-- C5 (amended): a numeric run-time-ticks value `t` yields duration
`t / 10,000,000` seconds; an absent field yields a null duration; a field
present with JSON `null` raises a `TypeError` instead of producing a
duration.  The first conjunct ties `trackDuration` to the duration of the
enriched record produced by the per-track step. -/
theorem c5_amended_duration (lookup : String → String → List String)
    (cache : GenreCache) (song : Song) (t : Int) :
    Except.map TrackOut.duration (processSong lookup cache song).2.2 = trackDuration song
    ∧ (song.RunTimeTicks = some (some t) →
        trackDuration song = Except.ok (some ((t : ℚ) / 10000000)))
    ∧ (song.RunTimeTicks = none → trackDuration song = Except.ok none)
    ∧ (song.RunTimeTicks = some none → trackDuration song = Except.error PyError.typeError) := by
  refine ⟨?_, ?_, ?_, ?_⟩
  · cases hd : trackDuration song with
    | error e => simp [processSong, hd, Except.map]
    | ok dur => simp [processSong, hd, Except.map]
  · intro h; simp [trackDuration, h]
  · intro h; simp [trackDuration, h]
  · intro h; simp [trackDuration, h]

/-- Witness for the amended C5: ticks 25,000,000 yield 2.5 seconds. -/
theorem c5_amended_witness :
    trackDuration { RunTimeTicks := some (some 25000000) }
      = Except.ok (some (((25000000 : Int) : ℚ) / 10000000))
    ∧ ((25000000 : Int) : ℚ) / 10000000 = 5 / 2 :=
  ⟨(c5_amended_duration lookupNone [] { RunTimeTicks := some (some 25000000) } 25000000).2.1
      rfl,
   by norm_num⟩

/-- C6: the remote genre lookup returns the top matching recording's tag
names when it carries a tag list; otherwise, when the top match credits an
artist, it returns that artist's own tag names from the second query; with
no match, no tags and no artist credit at any stage, and on a service-level
error in either query, it returns the empty list (being a total function,
it never raises). -/
theorem c6_lookup_fallback (mb : MBService) (artist_name song_title : String) :
    (∀ e, mb.search_recordings artist_name song_title = Except.error e →
        get_genres mb artist_name song_title = [])
    ∧ (mb.search_recordings artist_name song_title = Except.ok [] →
        get_genres mb artist_name song_title = [])
    ∧ (∀ r rest tags, mb.search_recordings artist_name song_title = Except.ok (r :: rest) →
        r.tag_list = some tags → get_genres mb artist_name song_title = tags)
    ∧ (∀ r rest, mb.search_recordings artist_name song_title = Except.ok (r :: rest) →
        r.tag_list = none → (r.artist_credit = none ∨ r.artist_credit = some []) →
        get_genres mb artist_name song_title = [])
    ∧ (∀ r rest aid ids, mb.search_recordings artist_name song_title = Except.ok (r :: rest) →
        r.tag_list = none → r.artist_credit = some (aid :: ids) →
        ((∀ e, mb.get_artist_by_id aid = Except.error e →
            get_genres mb artist_name song_title = [])
         ∧ (∀ info ar tags, mb.get_artist_by_id aid = Except.ok info →
             info.artist = some ar → ar.tag_list = some tags →
             get_genres mb artist_name song_title = tags)
         ∧ (∀ info, mb.get_artist_by_id aid = Except.ok info → info.artist = none →
             get_genres mb artist_name song_title = [])
         ∧ (∀ info ar, mb.get_artist_by_id aid = Except.ok info → info.artist = some ar →
             ar.tag_list = none → get_genres mb artist_name song_title = []))) := by
  refine ⟨?_, ?_, ?_, ?_, ?_⟩
  · intro e h; simp [get_genres, h]
  · intro h; simp [get_genres, h]
  · intro r rest tags h ht; simp [get_genres, h, ht]
  · intro r rest h ht hc
    cases hc with
    | inl hc => simp [get_genres, h, ht, hc]
    | inr hc => simp [get_genres, h, ht, hc]
  · intro r rest aid ids h ht hc
    refine ⟨?_, ?_, ?_, ?_⟩
    · intro e ha; simp [get_genres, h, ht, hc, ha]
    · intro info ar tags ha hi hat; simp [get_genres, h, ht, hc, ha, hi, hat]
    · intro info ha hi; simp [get_genres, h, ht, hc, ha, hi]
    · intro info ar ha hi hat; simp [get_genres, h, ht, hc, ha, hi, hat]

/-- Witness for C6: a tagged top match yields its tag names; a service-level
error yields the empty list. -/
theorem c6_witness :
    get_genres mbTagged "A" "T" = ["rock", "pop"]
    ∧ get_genres mbDown "A" "T" = [] :=
  ⟨(c6_lookup_fallback mbTagged "A" "T").2.2.1 { tag_list := some ["rock", "pop"] } []
      ["rock", "pop"] rfl rfl,
   (c6_lookup_fallback mbDown "A" "T").1 () rfl⟩

/-- The loop interrupted after `k` iterations accumulates exactly the output
list and genre cache of a completed run on the first `k` tracks. -/
theorem runLoop_take (lookup : String → String → List String) :
    ∀ (songs : List Song) (cache : GenreCache) (k : Nat),
      (runLoop lookup songs cache (some k)).1 = (runLoop lookup (songs.take k) cache none).1
      ∧ (runLoop lookup songs cache (some k)).2.1
          = (runLoop lookup (songs.take k) cache none).2.1 := by
  intro songs
  induction songs with
  | nil =>
    intro cache k
    cases k <;> simp [runLoop]
  | cons s rest ih =>
    intro cache k
    cases k with
    | zero => simp [runLoop]
    | succ n =>
      rw [List.take_succ_cons]
      cases hs : (processSong lookup cache s).2.2 with
      | error e => simp [runLoop, hs]
      | ok tr =>
        have h := ih (processSong lookup cache s).1 n
        simp [runLoop, hs, decFuel]
        exact ⟨h.1, h.2⟩

/-- C7: an operator interrupt after `k` tracks still writes the accumulated
output list and the genre cache accumulated so far through the finalization
block, and what is written is identical to what a normally completed run on
the first `k` tracks writes — nothing accumulated is discarded. -/
theorem c7_interrupt_preserves (lookup : String → String → List String)
    (library : List Song) (gc0 : GenreCache) (k : Nat) (fetchRes : Except Unit (List Song)) :
    (runProgram lookup (some library) fetchRes gc0 (some k)).outWritten
        = some (runLoop lookup library gc0 (some k)).1
    ∧ (runProgram lookup (some library) fetchRes gc0 (some k)).genreCacheWritten
        = some (runLoop lookup library gc0 (some k)).2.1
    ∧ (runProgram lookup (some library) fetchRes gc0 (some k)).outWritten
        = (runProgram lookup (some (library.take k)) fetchRes gc0 none).outWritten
    ∧ (runProgram lookup (some library) fetchRes gc0 (some k)).genreCacheWritten
        = (runProgram lookup (some (library.take k)) fetchRes gc0 none).genreCacheWritten := by
  refine ⟨rfl, rfl, ?_, ?_⟩
  · exact congrArg some (runLoop_take lookup library gc0 k).1
  · exact congrArg some (runLoop_take lookup library gc0 k).2

/-- C8: with the snapshot cache file present its contents are used as the
library with no fetch; with it absent a successful fetch is written to the
cache file verbatim and used; with it absent a transport error exits
nonzero with no output files written. -/
theorem c8_snapshot_branch (lookup : String → String → List String)
    (lib : List Song) (fetchRes : Except Unit (List Song)) (gc0 : GenreCache)
    (intr : Option Nat) (e : Unit) :
    (runProgram lookup (some lib) fetchRes gc0 intr
      = { exitCode := exitCodeOf (runLoop lookup lib gc0 intr).2.2
          fetchCalled := false
          jellyfinCacheWritten := none
          outWritten := some (runLoop lookup lib gc0 intr).1
          genreCacheWritten := some (runLoop lookup lib gc0 intr).2.1 })
    ∧ (runProgram lookup none (Except.ok lib) gc0 intr
      = { exitCode := exitCodeOf (runLoop lookup lib gc0 intr).2.2
          fetchCalled := true
          jellyfinCacheWritten := some lib
          outWritten := some (runLoop lookup lib gc0 intr).1
          genreCacheWritten := some (runLoop lookup lib gc0 intr).2.1 })
    ∧ (runProgram lookup none (Except.error e) gc0 intr
      = { exitCode := 1
          fetchCalled := true
          jellyfinCacheWritten := none
          outWritten := none
          genreCacheWritten := none }) :=
  ⟨rfl, rfl, rfl⟩

/-- C9: saving a string-keyed mapping and loading it back from the same path
returns the mapping exactly. -/
theorem c9_cache_roundtrip (fs : FS) (m : List (String × Json)) (p : String) :
    load_cache (save_cache fs m p) p = Json.obj m := by
  simp [load_cache, save_cache, os_path_exists]

/-- C10: processing one track changes the genre cache by at most appending
one new binding — either the cache is unchanged, or the track's server
genre list was empty, its compound key was absent, and exactly that key was
appended; in particular a track with non-empty server genres leaves the
cache unchanged. -/
theorem c10_cache_monotone (lookup : String → String → List String)
    (song : Song) (cache : GenreCache) :
    (song.Genres.getD [] ≠ [] → (trackGenres lookup song cache).2.1 = cache)
    ∧ ((trackGenres lookup song cache).2.1 = cache
       ∨ (song.Genres.getD [] = []
          ∧ cacheGet cache (genreCacheKey (primaryArtist song) (trackTitle song)) = none
          ∧ (trackGenres lookup song cache).2.1
              = cache ++ [(genreCacheKey (primaryArtist song) (trackTitle song),
                           lookup (primaryArtist song) (trackTitle song))])) := by
  cases hgd : song.Genres.getD [] with
  | cons a as =>
    constructor
    · intro _
      simp [trackGenres, hgd]
    · left
      simp [trackGenres, hgd]
  | nil =>
    constructor
    · intro hne
      exact absurd rfl hne
    · cases hc : cacheGet cache (genreCacheKey (primaryArtist song) (trackTitle song)) with
      | some gs =>
        left
        simp [trackGenres, hgd, resolveGenres, hc]
      | none =>
        right
        refine ⟨rfl, rfl, ?_⟩
        simp [trackGenres, hgd, resolveGenres, hc, cacheSet_absent _ _ _ hc]

/-- Witness for C10 at a track with non-empty server genres: the cache is
left unchanged. -/
theorem c10_witness :
    (trackGenres lookupZ { Genres := some ["Rock"] } [("k", ["v"])]).2.1 = [("k", ["v"])] :=
  (c10_cache_monotone lookupZ { Genres := some ["Rock"] } [("k", ["v"])]).1 (by decide)

end MusicViz
